import Mathlib

/-!
Verification of the Zephyr MicroPython socket binding
(`src/ports/zephyr/modsocket.c`): a shallow embedding of the socket
handle operations, the address codec, and the non-offload
getaddrinfo/DNS-callback bridge, together with theorems checking the
natural-language specification against the code.

Native Zephyr calls (`zsock_*`, `dns_get_addr_info`, `net_addr_pton`,
`net_addr_ntop`) are external collaborators: socket syscalls are modelled
by an environment record supplying their results, and the textual
address conversions are modelled by executable functions mirroring their
documented behaviour.  Each embedded definition keeps the name of the C
function it translates.
-/

/-! ## Native constants (Zephyr values) -/

def AF_INET : Int := 1
def AF_INET6 : Int := 2
def SOCK_STREAM : Int := 1
def SOCK_DGRAM : Int := 2
def IPPROTO_TCP : Int := 6
def IPPROTO_UDP : Int := 17
def EBADF : Int := 9
def EINVAL : Int := 22
def O_NONBLOCK : Nat := 0x4000
def DNS_QUERY_TYPE_A : Int := 1
def DNS_QUERY_TYPE_AAAA : Int := 28
def DNS_EAI_ALLDONE : Int := -103
def DNS_EAI_FAIL : Int := -4
def MP_STREAM_CLOSE : Nat := 4
def MP_EINVAL : Int := 22

/-- Constant `MICROPY_PY_SOCKET_LISTEN_BACKLOG_DEFAULT` from py/mpconfig.h. -/
def MICROPY_PY_SOCKET_LISTEN_BACKLOG_DEFAULT : Int := 2

def STATE_NEW : Int := 0

/-! ## Data model -/

/-- The `socket_obj_t` struct: native descriptor (`ctx`, -1 = closed
sentinel), advisory lifecycle state, and address family. -/
structure SocketObj where
  ctx : Int
  state : Int
  family : Int
deriving DecidableEq, Repr

/-- The fields of a native `struct sockaddr_in` / `sockaddr_in6` that the
binding reads or writes.  The binary address is kept as a list of
numeric components (4 bytes for IPv4, 8 hextets for IPv6).
`parse_inet_addr` never writes `scope_id`; in C the record is a
caller-supplied out-parameter, so the model threads the prior record
through and leaves `scope_id` untouched. -/
structure SockAddr where
  family : Int
  addr : List Nat
  port : Nat
  scope_id : Int
deriving DecidableEq, Repr

/-- Interpreter-level values crossing the binding boundary. -/
inductive MpVal where
  | str : String → MpVal
  | int : Int → MpVal
  | bytes : List Nat → MpVal
  | sock : SocketObj → MpVal
  | tup : List MpVal → MpVal
  | list : List MpVal → MpVal
  | none_ : MpVal

/-- Raised interpreter errors: `mp_raise_OSError code`, or the
argument-shape (TypeError/ValueError) errors of the object accessors. -/
inductive MpErr where
  | os : Int → MpErr
  | typeOrValue : MpErr
deriving DecidableEq, Repr

/-- One native call issued by an operation, recorded for the
no-native-call-on-closed-handle properties. -/
inductive NativeCall where
  | sockc : Int → Int → Int → NativeCall
  | bindc : NativeCall
  | connectc : NativeCall
  | listenc : Int → NativeCall
  | acceptc : NativeCall
  | sendc : Nat → NativeCall
  | recvc : Nat → NativeCall
  | fcntlGet : NativeCall
  | fcntlSet : Nat → NativeCall
  | closec : NativeCall
deriving DecidableEq, Repr

/-- Results the native layer returns to each syscall, plus the value of
`errno` after a failing call. -/
structure NativeEnv where
  socketRes : Int
  bindRes : Int
  connectRes : Int
  listenRes : Int
  acceptRes : Int
  sendRes : Int
  recvRes : Int
  recvBytes : List Nat
  fcntlGetRes : Int
  fcntlSetRes : Int
  closeRes : Int
  errno : Int
deriving Repr

/-! ## Textual address conversion (models of Zephyr `net_addr_pton` /
`net_addr_ntop`, external collaborators of this repository) -/

def decDigitVal (c : Char) : Option Nat :=
  if 48 ≤ c.toNat ∧ c.toNat ≤ 57 then some (c.toNat - 48) else none

def hexDigitVal (c : Char) : Option Nat :=
  if 48 ≤ c.toNat ∧ c.toNat ≤ 57 then some (c.toNat - 48)
  else if 97 ≤ c.toNat ∧ c.toNat ≤ 102 then some (c.toNat - 87)
  else if 65 ≤ c.toNat ∧ c.toNat ≤ 70 then some (c.toNat - 55)
  else none

def decPartVal (cs : List Char) : Option Nat :=
  if cs.length = 0 ∨ 3 < cs.length then none
  else cs.foldl (fun acc c =>
    match acc, decDigitVal c with
    | some a, some v => some (a * 10 + v)
    | _, _ => none) (some 0)

def hexGroupVal (cs : List Char) : Option Nat :=
  if cs.length = 0 ∨ 4 < cs.length then none
  else cs.foldl (fun acc c =>
    match acc, hexDigitVal c with
    | some a, some v => some (a * 16 + v)
    | _, _ => none) (some 0)

/-- Split a character list on a single separator character. -/
def splitOnChar (sep : Char) (cs : List Char) : List (List Char) :=
  cs.foldr (fun c acc =>
    match acc with
    | [] => [[c]]
    | g :: gs => if c = sep then [] :: g :: gs else (c :: g) :: gs) [[]]

/-- Split at the first occurrence of a double colon, if any. -/
def findDoubleColon : List Char → Option (List Char × List Char)
  | [] => none
  | [_] => none
  | a :: b :: rest =>
      if a = ':' ∧ b = ':' then some ([], rest)
      else
        match findDoubleColon (b :: rest) with
        | some (l, r) => some (a :: l, r)
        | none => none

def groupsOfParts (parts : List (List Char)) : Option (List Nat) :=
  parts.foldr (fun p acc =>
    match hexGroupVal p, acc with
    | some v, some l => some (v :: l)
    | _, _ => none) (some [])

def ipv4Pton (s : String) : Option (List Nat) :=
  match splitOnChar (Char.ofNat 46) s.data with
  | [a, b, c, d] =>
      match decPartVal a, decPartVal b, decPartVal c, decPartVal d with
      | some x, some y, some z, some w =>
          if x < 256 ∧ y < 256 ∧ z < 256 ∧ w < 256 then some [x, y, z, w]
          else none
      | _, _, _, _ => none
  | _ => none

def ipv6Pton (s : String) : Option (List Nat) :=
  match findDoubleColon s.data with
  | none =>
      match groupsOfParts (splitOnChar ':' s.data) with
      | some gs => if gs.length = 8 then some gs else none
      | none => none
  | some (l, r) =>
      let lp := if l = [] then [] else splitOnChar ':' l
      let rp := if r = [] then [] else splitOnChar ':' r
      match groupsOfParts lp, groupsOfParts rp with
      | some lg, some rg =>
          if lg.length + rg.length ≤ 7 then
            some (lg ++ List.replicate (8 - lg.length - rg.length) 0 ++ rg)
          else none
      | _, _ => none

def decDigitChar (n : Nat) : Char := Char.ofNat (48 + n)

def hexDigitChar (n : Nat) : Char :=
  if n < 10 then Char.ofNat (48 + n) else Char.ofNat (87 + n)

def decByteStr (b : Nat) : String :=
  if b < 10 then String.mk [decDigitChar b]
  else if b < 100 then String.mk [decDigitChar (b / 10), decDigitChar (b % 10)]
  else String.mk [decDigitChar (b / 100), decDigitChar (b / 10 % 10), decDigitChar (b % 10)]

def groupHexStr (g : Nat) : String :=
  if g < 16 then String.mk [hexDigitChar g]
  else if g < 256 then String.mk [hexDigitChar (g / 16), hexDigitChar (g % 16)]
  else if g < 4096 then
    String.mk [hexDigitChar (g / 256), hexDigitChar (g / 16 % 16), hexDigitChar (g % 16)]
  else
    String.mk [hexDigitChar (g / 4096), hexDigitChar (g / 256 % 16),
      hexDigitChar (g / 16 % 16), hexDigitChar (g % 16)]

def ipv4Ntop (bs : List Nat) : String :=
  String.intercalate "." (bs.map decByteStr)

def runLenAt (gs : List Nat) (i : Nat) : Nat :=
  ((gs.drop i).takeWhile (fun g => g = 0)).length

/-- Leftmost longest run of zero hextets: (start index, length). -/
def bestZeroRun (gs : List Nat) : Nat × Nat :=
  (List.range gs.length).foldl
    (fun best i => if best.2 < runLenAt gs i then (i, runLenAt gs i) else best) (0, 0)

def ipv6Ntop (gs : List Nat) : String :=
  let br := bestZeroRun gs
  if br.2 < 2 then String.intercalate ":" (gs.map groupHexStr)
  else
    String.intercalate ":" ((gs.take br.1).map groupHexStr) ++ "::" ++
      String.intercalate ":" ((gs.drop (br.1 + br.2)).map groupHexStr)

def net_addr_pton (family : Int) (s : String) : Option (List Nat) :=
  if family = AF_INET then ipv4Pton s
  else if family = AF_INET6 then ipv6Pton s
  else none

def net_addr_ntop (family : Int) (bs : List Nat) : String :=
  if family = AF_INET then ipv4Ntop bs
  else if family = AF_INET6 then ipv6Ntop bs
  else ""

example : ipv4Pton "1.2.3.4" = some [1, 2, 3, 4] := by decide
example : ipv4Ntop [1, 2, 3, 4] = "1.2.3.4" := by decide
example : ipv6Pton "::1" = some [0, 0, 0, 0, 0, 0, 0, 1] := by decide
example : ipv6Ntop [0, 0, 0, 0, 0, 0, 0, 1] = "::1" := by decide

/-! ## Address codec (`parse_inet_addr` / `format_inet_addr`) -/

/-- Translation of `parse_inet_addr` from modsocket.c.  The C writes into a
caller-supplied `struct sockaddr`; `rec` is that record, and only the
family, address and port fields are written (never `scope_id`).
Mirrors the C order: arity check, textual-address conversion
(`RAISE_ERRNO` raises `EINVAL` when `net_addr_pton` rejects the text),
then the port, truncated to 16 bits by the `in_port_t` assignment. -/
def parse_inet_addr (sock : SocketObj) (addr_in : MpVal) (rec : SockAddr) :
    Except MpErr SockAddr :=
  let fam := sock.family
  let size : Nat := if fam = AF_INET6 then 4 else 2
  match addr_in with
  | MpVal.tup items =>
      if items.length = size then
        match items[0]? with
        | some (MpVal.str a) =>
            match net_addr_pton fam a with
            | some bs =>
                match items[1]? with
                | some (MpVal.int p) =>
                    Except.ok { rec with family := fam, addr := bs, port := (p.emod 65536).toNat }
                | _ => Except.error MpErr.typeOrValue
            | none => Except.error (MpErr.os EINVAL)
        | _ => Except.error MpErr.typeOrValue
      else Except.error MpErr.typeOrValue
  | _ => Except.error MpErr.typeOrValue

/-- Translation of `format_inet_addr` from modsocket.c: a 2-tuple for IPv4, otherwise a
4-tuple; the port item is the caller-supplied object (the record's port
field is never decoded), flow-info is hardcoded to 0, and scope-id is
read from the record.  For a family other than IPv4/IPv6 the last two
items are never assigned (modelled as `none_`). -/
def format_inet_addr (rec : SockAddr) (port : MpVal) : MpVal :=
  let buf := net_addr_ntop rec.family rec.addr
  if rec.family = AF_INET then MpVal.tup [MpVal.str buf, port]
  else if rec.family = AF_INET6 then
    MpVal.tup [MpVal.str buf, port, MpVal.int 0, MpVal.int rec.scope_id]
  else MpVal.tup [MpVal.str buf, port, MpVal.none_, MpVal.none_]

/-- A fresh stack `struct sockaddr` as used by `socket_bind` and
`socket_connect` (the C leaves it uninitialized; the model zero-fills). -/
def freshSockAddr : SockAddr := { family := 0, addr := [], port := 0, scope_id := 0 }

/-! ## Socket handle operations -/

/-- The `socket_check_closed` guard, inlined into each operation below as the
`sock.ctx = -1` test raising `EBADF`. -/
def socket_check_closed (sock : SocketObj) : Except MpErr Unit :=
  if sock.ctx = -1 then Except.error (MpErr.os EBADF) else Except.ok ()

/-- Translation of `socket_make_new`: positional arguments default to
`(AF_INET, SOCK_STREAM, -1)`; protocol -1 (the auto sentinel) resolves
to TCP for `SOCK_STREAM` and UDP otherwise; a failed `zsock_socket`
raises `OSError(errno)` via `RAISE_SOCK_ERRNO`. -/
def socket_make_new (args : List Int) (env : NativeEnv) :
    Except MpErr SocketObj × List NativeCall :=
  let family := args.getD 0 AF_INET
  let socktype := args.getD 1 SOCK_STREAM
  let proto0 := args.getD 2 (-1)
  let proto := if proto0 = -1 then (if socktype ≠ SOCK_STREAM then IPPROTO_UDP else IPPROTO_TCP) else proto0
  let calls := [NativeCall.sockc family socktype proto]
  if env.socketRes = -1 then (Except.error (MpErr.os env.errno), calls)
  else (Except.ok { ctx := env.socketRes, state := STATE_NEW, family := family }, calls)

/-- Translation of `socket_bind`. -/
def socket_bind (sock : SocketObj) (addr_in : MpVal) (env : NativeEnv) :
    Except MpErr MpVal × List NativeCall :=
  if sock.ctx = -1 then (Except.error (MpErr.os EBADF), [])
  else
    match parse_inet_addr sock addr_in freshSockAddr with
    | Except.error e => (Except.error e, [])
    | Except.ok _ =>
        if env.bindRes = -1 then (Except.error (MpErr.os env.errno), [NativeCall.bindc])
        else (Except.ok MpVal.none_, [NativeCall.bindc])

/-- Translation of `socket_connect`. -/
def socket_connect (sock : SocketObj) (addr_in : MpVal) (env : NativeEnv) :
    Except MpErr MpVal × List NativeCall :=
  if sock.ctx = -1 then (Except.error (MpErr.os EBADF), [])
  else
    match parse_inet_addr sock addr_in freshSockAddr with
    | Except.error e => (Except.error e, [])
    | Except.ok _ =>
        if env.connectRes = -1 then (Except.error (MpErr.os env.errno), [NativeCall.connectc])
        else (Except.ok MpVal.none_, [NativeCall.connectc])

/-- Translation of `socket_listen`: backlog defaults to the build-time constant and a
negative argument is clamped to 0. -/
def socket_listen (sock : SocketObj) (backlogArg : Option Int) (env : NativeEnv) :
    Except MpErr MpVal × List NativeCall :=
  if sock.ctx = -1 then (Except.error (MpErr.os EBADF), [])
  else
    let backlog := match backlogArg with
      | none => MICROPY_PY_SOCKET_LISTEN_BACKLOG_DEFAULT
      | some b => if b < 0 then 0 else b
    if env.listenRes = -1 then (Except.error (MpErr.os env.errno), [NativeCall.listenc backlog])
    else (Except.ok MpVal.none_, [NativeCall.listenc backlog])

/-- Translation of `socket_accept`: the result of `zsock_accept` is wrapped in a fresh
socket object without any error check; `socket_new` leaves the new
object's family unset (modelled as 0), and the peer address item is the
`None` placeholder. -/
def socket_accept (sock : SocketObj) (env : NativeEnv) :
    Except MpErr MpVal × List NativeCall :=
  if sock.ctx = -1 then (Except.error (MpErr.os EBADF), [])
  else
    (Except.ok (MpVal.tup
        [MpVal.sock { ctx := env.acceptRes, state := STATE_NEW, family := 0 }, MpVal.none_]),
      [NativeCall.acceptc])

/-- Translation of `sock_write`: the stream-protocol write; returns the sent length or
an errno as the stream errcode. -/
def sock_write (sock : SocketObj) (size : Nat) (env : NativeEnv) :
    Except Int Nat × List NativeCall :=
  if sock.ctx = -1 then (Except.error EBADF, [])
  else if env.sendRes = -1 then (Except.error env.errno, [NativeCall.sendc size])
  else (Except.ok env.sendRes.toNat, [NativeCall.sendc size])

/-- Translation of `socket_send`: wraps `sock_write`, raising `OSError(errcode)` on a
stream error. -/
def socket_send (sock : SocketObj) (buf : List Nat) (env : NativeEnv) :
    Except MpErr MpVal × List NativeCall :=
  match sock_write sock buf.length env with
  | (Except.error e, cs) => (Except.error (MpErr.os e), cs)
  | (Except.ok len, cs) => (Except.ok (MpVal.int len), cs)

/-- Translation of `sock_read`: the stream-protocol read; returns the native receive
count or an errno as the stream errcode. -/
def sock_read (sock : SocketObj) (max_len : Nat) (env : NativeEnv) :
    Except Int Nat × List NativeCall :=
  if sock.ctx = -1 then (Except.error EBADF, [])
  else if env.recvRes = -1 then (Except.error env.errno, [NativeCall.recvc max_len])
  else (Except.ok env.recvRes.toNat, [NativeCall.recvc max_len])

/-- Translation of `socket_recv`: allocates a `max_len + 1` byte vstr (the slack byte
for a trailing terminator), reads at most `max_len` bytes, returns empty
bytes on a zero count and otherwise the first `len` bytes of the buffer
(the bytes the native layer wrote, zero-padded slack after them).  The
third component records the allocation size. -/
def socket_recv (sock : SocketObj) (max_len : Nat) (env : NativeEnv) :
    Except MpErr MpVal × List NativeCall × Nat :=
  let allocSize := max_len + 1
  match sock_read sock max_len env with
  | (Except.error e, cs) => (Except.error (MpErr.os e), cs, allocSize)
  | (Except.ok len, cs) =>
      if len = 0 then (Except.ok (MpVal.bytes []), cs, allocSize)
      else (Except.ok (MpVal.bytes ((env.recvBytes ++ List.replicate allocSize 0).take len)), cs, allocSize)

/-- Translation of `socket_setblocking`: no closed-descriptor check; reads the flags
with `zsock_fcntl(F_GETFL)`, sets or clears `O_NONBLOCK`, writes them
back, and raises `mp_raise_OSError(-errno)` (note: negated) when either
fcntl fails.  Clearing the bit is written `x - (x &&& O_NONBLOCK)`,
which equals masking out the single `O_NONBLOCK` bit. -/
def socket_setblocking (sock : SocketObj) (blocking : Bool) (env : NativeEnv) :
    Except MpErr MpVal × List NativeCall :=
  if env.fcntlGetRes = -1 then (Except.error (MpErr.os (-env.errno)), [NativeCall.fcntlGet])
  else
    let flags := env.fcntlGetRes.toNat
    let newFlags := if blocking then flags - (flags &&& O_NONBLOCK) else flags ||| O_NONBLOCK
    if env.fcntlSetRes = -1 then
      (Except.error (MpErr.os (-env.errno)), [NativeCall.fcntlGet, NativeCall.fcntlSet newFlags])
    else (Except.ok MpVal.none_, [NativeCall.fcntlGet, NativeCall.fcntlSet newFlags])

/-- Translation of `sock_ioctl`: request `MP_STREAM_CLOSE` issues the native close only when the
descriptor is live (`RAISE_SOCK_ERRNO` raises `OSError(errno)` on
failure, leaving the descriptor unchanged), then marks it closed; any
other request is `MP_EINVAL`.  Returns (result, updated socket, calls). -/
def sock_ioctl (sock : SocketObj) (request : Nat) (env : NativeEnv) :
    Except MpErr Nat × SocketObj × List NativeCall :=
  if request = MP_STREAM_CLOSE then
    if sock.ctx ≠ -1 then
      if env.closeRes = -1 then (Except.error (MpErr.os env.errno), sock, [NativeCall.closec])
      else (Except.ok 0, { sock with ctx := -1 }, [NativeCall.closec])
    else (Except.ok 0, sock, [])
  else (Except.error (MpErr.os MP_EINVAL), sock, [])

/-! ## getaddrinfo / DNS callback bridge (non-offload build) -/

/-- One per-address callback payload: `info->ai_family` and
`info->ai_addr`. -/
structure DnsInfo where
  ai_family : Int
  ai_addr : SockAddr
deriving Repr

/-- Native behaviour of one `dns_get_addr_info` sub-query: the return
code of issuing the query, the per-address callback invocations it
triggers, and the status of the final (null-info) callback. -/
structure DnsOutcome where
  issueRes : Int
  events : List (Int × DnsInfo)
  finalStatus : Int
deriving Repr

/-- The `getaddrinfo_state_t` struct: result list, port object, status, and the
count of the completion semaphore.  The C leaves `status`
uninitialized; it is always written by the final callback before the
blocked caller reads it, and the model initializes it to 0. -/
structure GaiState where
  result : List MpVal
  port : MpVal
  status : Int
  semCount : Nat

def gaiInit (port : MpVal) : GaiState :=
  { result := [], port := port, status := 0, semCount := 0 }

/-- Translation of `dns_resolve_cb`: on the final invocation (null info) the
`DNS_EAI_ALLDONE` status is normalized to 0, the status is stored and
the semaphore is given; on a per-address invocation a 5-tuple
(family, STREAM placeholder, TCP placeholder, empty name, decoded
address) is appended and the semaphore is not touched. -/
def dns_resolve_cb (status : Int) (info : Option DnsInfo) (st : GaiState) : GaiState :=
  match info with
  | none =>
      let status2 := if status = DNS_EAI_ALLDONE then 0 else status
      { st with status := status2, semCount := st.semCount + 1 }
  | some i =>
      { st with result := st.result ++
          [MpVal.tup [MpVal.int i.ai_family, MpVal.int SOCK_STREAM, MpVal.int IPPROTO_TCP,
            MpVal.str "", format_inet_addr i.ai_addr st.port]] }

/-- All per-address callback invocations of one sub-query, in order. -/
def process_events (evs : List (Int × DnsInfo)) (st : GaiState) : GaiState :=
  evs.foldl (fun s e => dns_resolve_cb e.1 (some e.2) s) st

/-- One complete sub-query seen from the callback side: every
per-address invocation, then the final invocation. -/
def run_subquery (o : DnsOutcome) (st : GaiState) : GaiState :=
  dns_resolve_cb o.finalStatus none (process_events o.events st)

/-- Model of `k_sem_take(&state.sem, K_FOREVER)`. -/
def sem_take (st : GaiState) : GaiState := { st with semCount := st.semCount - 1 }

/-- The record type picked inside the loop body,
`DNS_QUERY_TYPE_A` unless the family is `AF_INET6`. -/
def queryTypeFor (family : Int) : Int :=
  if family ≠ AF_INET6 then DNS_QUERY_TYPE_A else DNS_QUERY_TYPE_AAAA

/-- The `for (int i = 2; i--;)` loop of `mod_getaddrinfo`: at most two
iterations; each issues a query (`RAISE_ERRNO` aborts with the negated
native code when issuing fails), blocks on the semaphore until the
callback sequence of that sub-query has run, and breaks unless the
family hint is 0, in which case the family becomes `AF_INET6` for the
second pass.  Also returns the record types of the queries issued. -/
def gai_loop : Nat → Int → GaiState → (Nat → DnsOutcome) → Nat →
    Except MpErr GaiState × List Int
  | 0, _, st, _, _ => (Except.ok st, [])
  | fuel + 1, family, st, env, idx =>
      let t := queryTypeFor family
      let o := env idx
      if o.issueRes < 0 then (Except.error (MpErr.os (-o.issueRes)), [t])
      else
        let st2 := sem_take (run_subquery o st)
        if family ≠ 0 then (Except.ok st2, [t])
        else
          let rest := gai_loop fuel AF_INET6 st2 env (idx + 1)
          (rest.1, t :: rest.2)

/-- Translation of `mod_getaddrinfo` (non-offload build): the family hint defaults to
`AF_INET` when the third argument is omitted; the port is validated as
an integer; after the loop, an `OSError(status)` is raised only when the
status is non-zero and the result list is empty.  The second component
is the list of record types of the sub-queries issued. -/
def mod_getaddrinfo (host : String) (port_in : MpVal) (familyArg : Option Int)
    (env : Nat → DnsOutcome) : Except MpErr MpVal × List Int :=
  let family := familyArg.getD AF_INET
  match port_in with
  | MpVal.int _ =>
      match gai_loop 2 family (gaiInit port_in) env 0 with
      | (Except.error e, ts) => (Except.error e, ts)
      | (Except.ok st, ts) =>
          if st.status ≠ 0 ∧ st.result.length = 0 then (Except.error (MpErr.os st.status), ts)
          else (Except.ok (MpVal.list st.result), ts)
  | _ => (Except.error MpErr.typeOrValue, [])

/-! ## Helper lemmas -/

/-- A zeroed native environment, updated per scenario below. -/
def envZero : NativeEnv :=
  { socketRes := 0, bindRes := 0, connectRes := 0, listenRes := 0, acceptRes := 0,
    sendRes := 0, recvRes := 0, recvBytes := [], fcntlGetRes := 0, fcntlSetRes := 0,
    closeRes := 0, errno := 0 }

theorem process_events_preserves (evs : List (Int × DnsInfo)) (st : GaiState) :
    (process_events evs st).semCount = st.semCount ∧
      (process_events evs st).status = st.status := by
  induction evs generalizing st with
  | nil => exact ⟨rfl, rfl⟩
  | cons e evs ih =>
      have h := ih (dns_resolve_cb e.1 (some e.2) st)
      simpa [process_events, dns_resolve_cb] using h

theorem mod_getaddrinfo_snd (host : String) (p : Int) (fa : Option Int)
    (env : Nat → DnsOutcome) :
    (mod_getaddrinfo host (MpVal.int p) fa env).2 =
      (gai_loop 2 (fa.getD AF_INET) (gaiInit (MpVal.int p)) env 0).2 := by
  unfold mod_getaddrinfo
  rcases h : gai_loop 2 (fa.getD AF_INET) (gaiInit (MpVal.int p)) env 0 with ⟨r, ts⟩
  cases r with
  | error e => simp [h]
  | ok st =>
      simp only [h]
      split <;> rfl

/-! ## Claim theorems -/

/-- C4: within one resolution sub-query, the DNS callback signals the
completion semaphore exactly once — only on the final invocation (null
address record), never on a per-address invocation — and on that final
invocation the all-done status is normalized to success (0) before
being stored. -/
theorem dns_cb_signals_once (o : DnsOutcome) (st : GaiState) :
    (process_events o.events st).semCount = st.semCount ∧
    (run_subquery o st).semCount = st.semCount + 1 ∧
    (run_subquery o st).status =
      (if o.finalStatus = DNS_EAI_ALLDONE then 0 else o.finalStatus) ∧
    (∀ (stat : Int) (i : DnsInfo) (st2 : GaiState),
      (dns_resolve_cb stat (some i) st2).semCount = st2.semCount) ∧
    (∀ (stat : Int) (st2 : GaiState),
      (dns_resolve_cb stat none st2).semCount = st2.semCount + 1) := by
  refine ⟨(process_events_preserves o.events st).1, ?_, ?_, ?_, ?_⟩
  · simp [run_subquery, dns_resolve_cb, (process_events_preserves o.events st).1]
  · simp [run_subquery, dns_resolve_cb]
  · intro stat i st2; rfl
  · intro stat st2; rfl

/-- C10: with the optional family argument omitted, the family defaults
to AF_INET (not 0), so exactly one A-record sub-query is issued and no
AAAA query is ever attempted. -/
theorem gai_default_family_ipv4 (host : String) (p : Int) (env : Nat → DnsOutcome) :
    (mod_getaddrinfo host (MpVal.int p) none env).2 = [DNS_QUERY_TYPE_A] := by
  rw [mod_getaddrinfo_snd]
  by_cases h : (env 0).issueRes < 0 <;>
    simp [gai_loop, queryTypeFor, h, AF_INET, AF_INET6]

/-- C2: after the sub-queries complete, an OS-error carrying the
aggregated status is raised if and only if that status is non-zero and
the collected result list is empty; otherwise the collected address
list is returned without raising. -/
theorem gai_error_policy (host : String) (p : Int) (fa : Option Int)
    (env : Nat → DnsOutcome) (st : GaiState) (ts : List Int)
    (h : gai_loop 2 (fa.getD AF_INET) (gaiInit (MpVal.int p)) env 0 = (Except.ok st, ts)) :
    (st.status ≠ 0 ∧ st.result.length = 0 →
      (mod_getaddrinfo host (MpVal.int p) fa env).1 = Except.error (MpErr.os st.status)) ∧
    (¬(st.status ≠ 0 ∧ st.result.length = 0) →
      (mod_getaddrinfo host (MpVal.int p) fa env).1 = Except.ok (MpVal.list st.result)) := by
  constructor <;> intro hc
  · simp [mod_getaddrinfo, h, hc]
  · simp only [mod_getaddrinfo, h]
    rw [if_neg hc]

/-- Both sub-queries fail with `DNS_EAI_FAIL` and deliver no address. -/
def envBothFail : Nat → DnsOutcome :=
  fun _ => { issueRes := 0, events := [], finalStatus := DNS_EAI_FAIL }

theorem gai_error_policy_witness :
    (mod_getaddrinfo "example.org" (MpVal.int 80) (some 0) envBothFail).1 =
      Except.error (MpErr.os DNS_EAI_FAIL) := by
  have h : gai_loop 2 ((some (0 : Int)).getD AF_INET) (gaiInit (MpVal.int 80)) envBothFail 0 =
      (Except.ok { result := [], port := MpVal.int 80, status := DNS_EAI_FAIL, semCount := 0 },
        [DNS_QUERY_TYPE_A, DNS_QUERY_TYPE_AAAA]) := rfl
  exact (gai_error_policy "example.org" 80 (some 0) envBothFail _ _ h).1 (by decide)

/-- C1 (corrected): with family hint 0 the loop issues exactly two
sub-queries, but in the order A (IPv4) first — since the loop starts
with `family = 0 ≠ AF_INET6` — and AAAA (IPv6) second; with a non-zero
hint exactly one sub-query is issued, of type AAAA when the hint is
AF_INET6 and A otherwise. -/
theorem gai_query_plan (host : String) (p f : Int) (env : Nat → DnsOutcome)
    (hf : f ≠ 0) (h0 : ¬(env 0).issueRes < 0) :
    (mod_getaddrinfo host (MpVal.int p) (some 0) env).2 =
      [DNS_QUERY_TYPE_A, DNS_QUERY_TYPE_AAAA] ∧
    (mod_getaddrinfo host (MpVal.int p) (some f) env).2 =
      [if f = AF_INET6 then DNS_QUERY_TYPE_AAAA else DNS_QUERY_TYPE_A] := by
  constructor
  · rw [mod_getaddrinfo_snd]
    by_cases h1 : (env 1).issueRes < 0 <;>
      simp [gai_loop, queryTypeFor, h0, h1, AF_INET, AF_INET6]
  · rw [mod_getaddrinfo_snd]
    by_cases h1 : (env 0).issueRes < 0 <;>
      by_cases hf6 : f = AF_INET6 <;>
        simp [gai_loop, queryTypeFor, h1, hf, hf6, AF_INET, AF_INET6]

/-- Every sub-query issues successfully and completes with no address. -/
def envDnsOk : Nat → DnsOutcome :=
  fun _ => { issueRes := 0, events := [], finalStatus := DNS_EAI_ALLDONE }

/-- C1 counterexample: with hint 0 the issued order is not
AAAA-then-A (it is A-then-AAAA). -/
theorem gai_query_plan_cx :
    (mod_getaddrinfo "example.org" (MpVal.int 80) (some 0) envDnsOk).2 ≠
      [DNS_QUERY_TYPE_AAAA, DNS_QUERY_TYPE_A] := by
  decide

theorem gai_query_plan_witness :
    (mod_getaddrinfo "example.org" (MpVal.int 80) (some 0) envDnsOk).2 =
      [DNS_QUERY_TYPE_A, DNS_QUERY_TYPE_AAAA] ∧
    (mod_getaddrinfo "example.org" (MpVal.int 80) (some AF_INET) envDnsOk).2 =
      [if AF_INET = AF_INET6 then DNS_QUERY_TYPE_AAAA else DNS_QUERY_TYPE_A] :=
  gai_query_plan "example.org" 80 AF_INET envDnsOk (by decide) (by decide)

/-- C9: socket construction defaults to family AF_INET and type
SOCK_STREAM; with the protocol omitted (the -1 auto sentinel) the
protocol resolves to TCP exactly when the type is SOCK_STREAM and UDP
otherwise; a native allocation failure raises OSError(errno). -/
theorem make_new_defaults (envOk envFail : NativeEnv) (f t pr : Int)
    (hok : envOk.socketRes ≠ -1) (hfail : envFail.socketRes = -1) :
    (socket_make_new [] envOk).2 = [NativeCall.sockc AF_INET SOCK_STREAM IPPROTO_TCP] ∧
    (socket_make_new [f, t] envOk).2 =
      [NativeCall.sockc f t (if t = SOCK_STREAM then IPPROTO_TCP else IPPROTO_UDP)] ∧
    (socket_make_new [f, t, pr] envFail).1 = Except.error (MpErr.os envFail.errno) ∧
    (socket_make_new [] envOk).1 =
      Except.ok { ctx := envOk.socketRes, state := STATE_NEW, family := AF_INET } := by
  refine ⟨?_, ?_, ?_, ?_⟩
  · simp [socket_make_new, hok]
  · by_cases ht : t = SOCK_STREAM <;> simp [socket_make_new, hok, ht]
  · simp [socket_make_new, hfail]
  · simp [socket_make_new, hok]

/-- Allocation succeeds with descriptor 5. -/
def envSock5 : NativeEnv := { envZero with socketRes := 5 }

/-- Allocation fails with errno 23. -/
def envSockFail : NativeEnv := { envZero with socketRes := -1, errno := 23 }

theorem make_new_defaults_witness :
    (socket_make_new [] envSock5).2 =
      [NativeCall.sockc AF_INET SOCK_STREAM IPPROTO_TCP] ∧
    (socket_make_new [AF_INET6, SOCK_DGRAM] envSock5).2 =
      [NativeCall.sockc AF_INET6 SOCK_DGRAM
        (if SOCK_DGRAM = SOCK_STREAM then IPPROTO_TCP else IPPROTO_UDP)] ∧
    (socket_make_new [AF_INET6, SOCK_DGRAM, 99] envSockFail).1 =
      Except.error (MpErr.os envSockFail.errno) ∧
    (socket_make_new [] envSock5).1 =
      Except.ok { ctx := envSock5.socketRes, state := STATE_NEW, family := AF_INET } :=
  make_new_defaults envSock5 envSockFail AF_INET6 SOCK_DGRAM 99 (by decide) (by decide)

/-- C6: close is idempotent — on an already-closed handle it makes no
native call, raises nothing and leaves the handle unchanged; on a live
handle it issues the native close exactly once and then marks the
descriptor closed, after which a second close is a no-op. -/
theorem close_idempotent (s sc : SocketObj) (env env2 env3 : NativeEnv)
    (hs : s.ctx ≠ -1) (hsc : sc.ctx = -1) (henv : env.closeRes ≠ -1) :
    sock_ioctl sc MP_STREAM_CLOSE env3 = (Except.ok 0, sc, []) ∧
    sock_ioctl s MP_STREAM_CLOSE env =
      (Except.ok 0, { s with ctx := -1 }, [NativeCall.closec]) ∧
    sock_ioctl { s with ctx := -1 } MP_STREAM_CLOSE env2 =
      (Except.ok 0, { s with ctx := -1 }, []) := by
  refine ⟨?_, ?_, ?_⟩ <;> simp [sock_ioctl, hs, hsc, henv]

theorem close_idempotent_witness :
    sock_ioctl { ctx := -1, state := 0, family := 1 } MP_STREAM_CLOSE envZero =
      (Except.ok 0, { ctx := -1, state := 0, family := 1 }, []) ∧
    sock_ioctl { ctx := 3, state := 0, family := 1 } MP_STREAM_CLOSE envZero =
      (Except.ok 0, { (⟨3, 0, 1⟩ : SocketObj) with ctx := -1 }, [NativeCall.closec]) ∧
    sock_ioctl { (⟨3, 0, 1⟩ : SocketObj) with ctx := -1 } MP_STREAM_CLOSE envZero =
      (Except.ok 0, { (⟨3, 0, 1⟩ : SocketObj) with ctx := -1 }, []) :=
  close_idempotent ⟨3, 0, 1⟩ ⟨-1, 0, 1⟩ envZero envZero envZero
    (by decide) (by decide) (by decide)

/-- C3 (corrected): on a handle whose descriptor is the closed sentinel,
bind, connect, listen, accept, send and recv fail with EBADF and make no
native call; setblocking, however, performs no closed-descriptor check —
it invokes the native fcntl on the closed descriptor and, when that
fcntl fails, raises an OS-error carrying the negated errno rather than
EBADF. -/
theorem closed_handle_ops (s : SocketObj) (hs : s.ctx = -1) (addr : MpVal)
    (env : NativeEnv) (bl : Option Int) (buf : List Nat) (n : Nat) (b : Bool) :
    socket_bind s addr env = (Except.error (MpErr.os EBADF), []) ∧
    socket_connect s addr env = (Except.error (MpErr.os EBADF), []) ∧
    socket_listen s bl env = (Except.error (MpErr.os EBADF), []) ∧
    socket_accept s env = (Except.error (MpErr.os EBADF), []) ∧
    socket_send s buf env = (Except.error (MpErr.os EBADF), []) ∧
    (socket_recv s n env).1 = Except.error (MpErr.os EBADF) ∧
    (socket_recv s n env).2.1 = [] ∧
    (socket_setblocking s b env).2 ≠ [] ∧
    (env.fcntlGetRes = -1 →
      (socket_setblocking s b env).1 = Except.error (MpErr.os (-env.errno))) := by
  refine ⟨?_, ?_, ?_, ?_, ?_, ?_, ?_, ?_, ?_⟩
  · simp [socket_bind, hs]
  · simp [socket_connect, hs]
  · simp [socket_listen, hs]
  · simp [socket_accept, hs]
  · simp [socket_send, sock_write, hs]
  · simp [socket_recv, sock_read, hs]
  · simp [socket_recv, sock_read, hs]
  · by_cases h1 : env.fcntlGetRes = -1
    · simp [socket_setblocking, h1]
    · by_cases h2 : env.fcntlSetRes = -1 <;> simp [socket_setblocking, h1, h2]
  · intro h1; simp [socket_setblocking, h1]

/-- The first fcntl fails with errno 9. -/
def envFcntlFail : NativeEnv := { envZero with fcntlGetRes := -1, errno := 9 }

/-- C3 counterexample: setblocking on a closed handle does make a native
call (the fcntl), and the error it raises is OSError(-9), not the fixed
EBADF (9). -/
theorem closed_handle_ops_cx :
    (socket_setblocking { ctx := -1, state := 0, family := 1 } true envFcntlFail).2 =
      [NativeCall.fcntlGet] ∧
    (socket_setblocking { ctx := -1, state := 0, family := 1 } true envFcntlFail).1 =
      Except.error (MpErr.os (-9)) ∧
    MpErr.os (-9) ≠ MpErr.os EBADF := by
  refine ⟨rfl, rfl, by decide⟩

theorem closed_handle_ops_witness :
    socket_bind { ctx := -1, state := 0, family := 1 } MpVal.none_ envFcntlFail =
      (Except.error (MpErr.os EBADF), []) ∧
    (socket_setblocking { ctx := -1, state := 0, family := 1 } true envFcntlFail).1 =
      Except.error (MpErr.os (-envFcntlFail.errno)) :=
  ⟨(closed_handle_ops ⟨-1, 0, 1⟩ rfl MpVal.none_ envFcntlFail none [] 0 true).1,
   (closed_handle_ops ⟨-1, 0, 1⟩ rfl MpVal.none_ envFcntlFail none [] 0 true).2.2.2.2.2.2.2.2
     rfl⟩

/-- C7: recv on a live handle allocates a buffer of maxLength plus one
slack byte, raises OSError(errno) when the native read fails, returns
empty bytes (not an error) on a zero native read count, and otherwise
returns exactly the bytes the native read reported. -/
theorem recv_contract (s : SocketObj) (n k : Nat) (envF env0 envK : NativeEnv)
    (hs : s.ctx ≠ -1)
    (hf : envF.recvRes = -1)
    (h0 : env0.recvRes = 0)
    (hk : envK.recvRes = (k : Int)) (hkpos : 0 < k)
    (hkb : envK.recvBytes.length = k) :
    (socket_recv s n envF).2.2 = n + 1 ∧
    (socket_recv s n envF).1 = Except.error (MpErr.os envF.errno) ∧
    (socket_recv s n env0).1 = Except.ok (MpVal.bytes []) ∧
    (socket_recv s n envK).1 = Except.ok (MpVal.bytes envK.recvBytes) := by
  have hk1 : envK.recvRes ≠ -1 := by rw [hk]; omega
  refine ⟨?_, ?_, ?_, ?_⟩
  · simp [socket_recv, sock_read, hs, hf]
  · simp [socket_recv, sock_read, hs, hf]
  · simp [socket_recv, sock_read, hs, h0]
  · have htoNat : envK.recvRes.toNat = k := by omega
    have hne0 : envK.recvRes.toNat ≠ 0 := by omega
    have htake : (envK.recvBytes ++ List.replicate (n + 1) 0).take envK.recvRes.toNat =
        envK.recvBytes := by
      rw [htoNat, ← hkb]
      exact List.take_left envK.recvBytes (List.replicate (n + 1) 0)
    simp [socket_recv, sock_read, hs, hk1, hne0, htake]

/-- Native read delivers two bytes. -/
def envRecv2 : NativeEnv := { envZero with recvRes := 2, recvBytes := [104, 105] }

/-- Native read fails with errno 11. -/
def envRecvFail : NativeEnv := { envZero with recvRes := -1, errno := 11 }

theorem recv_contract_witness :
    (socket_recv { ctx := 3, state := 0, family := 1 } 4 envRecvFail).2.2 = 4 + 1 ∧
    (socket_recv { ctx := 3, state := 0, family := 1 } 4 envRecvFail).1 =
      Except.error (MpErr.os envRecvFail.errno) ∧
    (socket_recv { ctx := 3, state := 0, family := 1 } 4 envZero).1 =
      Except.ok (MpVal.bytes []) ∧
    (socket_recv { ctx := 3, state := 0, family := 1 } 4 envRecv2).1 =
      Except.ok (MpVal.bytes envRecv2.recvBytes) :=
  recv_contract ⟨3, 0, 1⟩ 4 2 envRecvFail envZero envRecv2
    (by decide) (by decide) (by decide) (by decide) (by decide) (by decide)

/-- C8 (corrected): native syscall failures in bind, connect, listen,
send, recv and close are surfaced as OS-errors carrying errno verbatim;
accept, however, performs no check on the native accept result — a
failure is silently swallowed and a handle wrapping the failed
descriptor (-1) is returned — and setblocking raises an OS-error
carrying the negated errno when the native fcntl fails. -/
theorem native_fail_policy (s : SocketObj) (envF : NativeEnv) (addr : MpVal)
    (sa : SockAddr) (bl : Option Int) (buf : List Nat) (n : Nat)
    (hs : s.ctx ≠ -1)
    (hp : parse_inet_addr s addr freshSockAddr = Except.ok sa)
    (hbind : envF.bindRes = -1) (hconn : envF.connectRes = -1)
    (hlist : envF.listenRes = -1) (hsend : envF.sendRes = -1)
    (hrecv : envF.recvRes = -1) (hclose : envF.closeRes = -1)
    (haccept : envF.acceptRes = -1) (hfcntl : envF.fcntlGetRes = -1) :
    (socket_bind s addr envF).1 = Except.error (MpErr.os envF.errno) ∧
    (socket_connect s addr envF).1 = Except.error (MpErr.os envF.errno) ∧
    (socket_listen s bl envF).1 = Except.error (MpErr.os envF.errno) ∧
    (socket_send s buf envF).1 = Except.error (MpErr.os envF.errno) ∧
    (socket_recv s n envF).1 = Except.error (MpErr.os envF.errno) ∧
    (sock_ioctl s MP_STREAM_CLOSE envF).1 = Except.error (MpErr.os envF.errno) ∧
    (socket_accept s envF).1 =
      Except.ok (MpVal.tup
        [MpVal.sock { ctx := -1, state := STATE_NEW, family := 0 }, MpVal.none_]) ∧
    (socket_setblocking s true envF).1 = Except.error (MpErr.os (-envF.errno)) := by
  refine ⟨?_, ?_, ?_, ?_, ?_, ?_, ?_, ?_⟩
  · simp [socket_bind, hs, hp, hbind]
  · simp [socket_connect, hs, hp, hconn]
  · simp [socket_listen, hs, hlist]
  · simp [socket_send, sock_write, hs, hsend]
  · simp [socket_recv, sock_read, hs, hrecv]
  · simp [sock_ioctl, hs, hclose]
  · simp [socket_accept, hs, haccept]
  · simp [socket_setblocking, hfcntl]

/-- Every native call fails with errno 7 (accept and fcntl included). -/
def envAllFail : NativeEnv :=
  { socketRes := -1, bindRes := -1, connectRes := -1, listenRes := -1, acceptRes := -1,
    sendRes := -1, recvRes := -1, recvBytes := [], fcntlGetRes := -1, fcntlSetRes := -1,
    closeRes := -1, errno := 7 }

/-- C8 counterexample: a failing native accept raises nothing — the call
returns a success tuple wrapping descriptor -1 — and a failing fcntl in
setblocking raises OSError(-7), not the errno 7 verbatim. -/
theorem native_fail_policy_cx :
    (socket_accept { ctx := 3, state := 0, family := 1 } envAllFail).1 =
      Except.ok (MpVal.tup
        [MpVal.sock { ctx := -1, state := 0, family := 0 }, MpVal.none_]) ∧
    (socket_setblocking { ctx := 3, state := 0, family := 1 } true envAllFail).1 =
      Except.error (MpErr.os (-7)) ∧
    MpErr.os (-7) ≠ MpErr.os (7 : Int) := by
  refine ⟨rfl, rfl, by decide⟩

theorem native_fail_policy_witness :
    (socket_bind { ctx := 3, state := 0, family := AF_INET }
        (MpVal.tup [MpVal.str "1.2.3.4", MpVal.int 80]) envAllFail).1 =
      Except.error (MpErr.os envAllFail.errno) ∧
    (socket_setblocking { ctx := 3, state := 0, family := AF_INET } true envAllFail).1 =
      Except.error (MpErr.os (-envAllFail.errno)) :=
  ⟨(native_fail_policy ⟨3, 0, AF_INET⟩ envAllFail
      (MpVal.tup [MpVal.str "1.2.3.4", MpVal.int 80])
      { freshSockAddr with family := AF_INET, addr := [1, 2, 3, 4], port := 80 }
      none [] 0 (by decide) rfl rfl rfl rfl rfl rfl rfl rfl rfl).1,
   (native_fail_policy ⟨3, 0, AF_INET⟩ envAllFail
      (MpVal.tup [MpVal.str "1.2.3.4", MpVal.int 80])
      { freshSockAddr with family := AF_INET, addr := [1, 2, 3, 4], port := 80 }
      none [] 0 (by decide) rfl rfl rfl rfl rfl rfl rfl rfl rfl).2.2.2.2.2.2.2⟩

/-- C5 (corrected): for IPv4, encode followed by decode with the same
port re-supplied returns the input tuple for every canonically
formatted valid address; for IPv6 4-tuples the address and port round
trip, but decode always reports flow-info 0 and takes the scope-id from
the native record — which encode never writes — so the input scope-id
is not preserved. -/
theorem codec_roundtrip :
    (∀ (c st p : Int) (s : String) (b : List Nat) (rec : SockAddr),
      ipv4Pton s = some b → ipv4Ntop b = s →
      (parse_inet_addr { ctx := c, state := st, family := AF_INET }
          (MpVal.tup [MpVal.str s, MpVal.int p]) rec).map
          (fun r => format_inet_addr r (MpVal.int p)) =
        Except.ok (MpVal.tup [MpVal.str s, MpVal.int p])) ∧
    (∀ (c st p sc : Int) (s : String) (b : List Nat) (rec : SockAddr),
      ipv6Pton s = some b → ipv6Ntop b = s →
      (parse_inet_addr { ctx := c, state := st, family := AF_INET6 }
          (MpVal.tup [MpVal.str s, MpVal.int p, MpVal.int 0, MpVal.int sc]) rec).map
          (fun r => format_inet_addr r (MpVal.int p)) =
        Except.ok (MpVal.tup
          [MpVal.str s, MpVal.int p, MpVal.int 0, MpVal.int rec.scope_id])) := by
  constructor
  · intro c st p s b rec h4 hc4
    simp [parse_inet_addr, net_addr_pton, net_addr_ntop, format_inet_addr,
      Except.map, AF_INET, AF_INET6, h4, hc4]
  · intro c st p sc s b rec h6 hc6
    simp [parse_inet_addr, net_addr_pton, net_addr_ntop, format_inet_addr,
      Except.map, AF_INET, AF_INET6, h6, hc6]

/-- C5 counterexample: the IPv6 tuple ("::1", 80, 0, 7) does not round
trip — encode never writes the scope-id into the record, so decoding
the encoded record returns scope-id 0 (the fresh record's content), not
the input's 7. -/
theorem codec_roundtrip_cx :
    (parse_inet_addr { ctx := 3, state := 0, family := AF_INET6 }
        (MpVal.tup [MpVal.str "::1", MpVal.int 80, MpVal.int 0, MpVal.int 7])
        freshSockAddr).map (fun r => format_inet_addr r (MpVal.int 80)) =
      Except.ok (MpVal.tup [MpVal.str "::1", MpVal.int 80, MpVal.int 0, MpVal.int 0]) ∧
    MpVal.tup [MpVal.str "::1", MpVal.int 80, MpVal.int 0, MpVal.int 0] ≠
      MpVal.tup [MpVal.str "::1", MpVal.int 80, MpVal.int 0, MpVal.int 7] := by
  refine ⟨rfl, by simp⟩

theorem codec_roundtrip_witness :
    (parse_inet_addr { ctx := 3, state := 0, family := AF_INET }
        (MpVal.tup [MpVal.str "1.2.3.4", MpVal.int 80]) freshSockAddr).map
        (fun r => format_inet_addr r (MpVal.int 80)) =
      Except.ok (MpVal.tup [MpVal.str "1.2.3.4", MpVal.int 80]) ∧
    (parse_inet_addr { ctx := 3, state := 0, family := AF_INET6 }
        (MpVal.tup [MpVal.str "::1", MpVal.int 80, MpVal.int 0, MpVal.int 5])
        freshSockAddr).map (fun r => format_inet_addr r (MpVal.int 80)) =
      Except.ok (MpVal.tup
        [MpVal.str "::1", MpVal.int 80, MpVal.int 0, MpVal.int freshSockAddr.scope_id]) :=
  ⟨codec_roundtrip.1 3 0 80 "1.2.3.4" [1, 2, 3, 4] freshSockAddr (by decide) (by decide),
   codec_roundtrip.2 3 0 80 5 "::1" [0, 0, 0, 0, 0, 0, 0, 1] freshSockAddr
     (by decide) (by decide)⟩
